import Mathlib

/-!
Verification of the terminal emulation core of this repository.

The development shallowly embeds the parts of the C++ sources that the
properties below are about:

* TerminalDispatch (src/cascadia/TerminalCore/TerminalDispatch.cpp):
  dispatch methods are modelled as functions from an abstract terminal
  API to a pair of the returned boolean and the ordered list of API
  calls that the method performs.  The API results are an input, so
  theorems quantify over every possible outcome of the sub-operations.
* Host API routines (src/host/getset.cpp): modelled as state
  transformers on an explicit console state; subroutines whose code is
  not part of this repository snapshot are taken as function parameters,
  so the theorems hold for every behaviour of those subroutines.
* Selection engine (src/host/selection.cpp) and the HwndTerminal mouse
  click logic (src/cascadia/PublicTerminalCore/HwndTerminal.cpp):
  modelled as state transformers on records mirroring the member fields.
* TextColor (src/buffer/out/TextColor.h).

Machine integers: SHORT values are modelled as Int (their range checks
appear explicitly where the source checks them); size_t parameters are
modelled as Nat.
-/

namespace Terminal

/-! ## Basic data types -/

/-- Win32 COORD: an X (column) and Y (row) pair of SHORTs. -/
structure COORD where
  X : Int
  Y : Int
deriving DecidableEq, Repr

/-- Win32 SMALL_RECT: an inclusive rectangle of SHORTs. -/
structure SMALL_RECT where
  Left : Int
  Top : Int
  Right : Int
  Bottom : Int
deriving DecidableEq, Repr

/-- Maximum value of a signed 16-bit SHORT (SHRT_MAX / SHORT_MAX). -/
def SHORT_MAX : Int := 32767

/-- HRESULT and NTSTATUS values are modelled as integers; negative means failure. -/
abbrev HResult := Int

def S_OK : HResult := 0

def E_INVALIDARG : HResult := -2147024809

def STATUS_SUCCESS : HResult := 0

/-! ## TerminalDispatch (src/cascadia/TerminalCore/TerminalDispatch.cpp)

Each dispatch method calls through an ITerminalApi.  We record the calls
a method makes, in order, next to the boolean it returns.  Methods of
the API that return a value in the source are given an arbitrary
Bool-valued result by the TerminalApi record; methods returning void
have no result field.  -/

/-- DispatchTypes::EraseType values used by erase operations. -/
inductive EraseType where
  | ToEnd
  | FromBeginning
  | All
  | Scrollback
deriving DecidableEq, Repr

/-- One call against the abstract ITerminalApi, with its arguments. -/
inductive ApiCall where
  | setCursorVisibility (isVisible : Bool)
  | setCursorKeysMode (applicationMode : Bool)
  | setKeypadMode (applicationMode : Bool)
  | setGraphicsRendition
  | eraseInDisplay (eraseType : EraseType)
  | setScreenMode (reverseMode : Bool)
  | setCursorPosition (x y : Int)
  | enableCursorBlinking (enable : Bool)
  | enableVT200MouseMode (enabled : Bool)
  | enableButtonEventMouseMode (enabled : Bool)
  | enableAnyEventMouseMode (enabled : Bool)
  | enableUTF8ExtendedMouseMode (enabled : Bool)
  | enableSGRExtendedMouseMode (enabled : Bool)
  | enableAlternateScrollMode (enabled : Bool)
  | enableWin32InputMode (enabled : Bool)
deriving DecidableEq, Repr

/-- Results of the Bool-returning ITerminalApi methods.  Quantifying over
this record quantifies over every combination of sub-operation outcomes. -/
structure TerminalApi where
  setCursorVisibility : Bool → Bool
  eraseInDisplay : EraseType → Bool
  setScreenMode : Bool → Bool
  setCursorPosition : Int → Int → Bool
  enableCursorBlinking : Bool → Bool
  /-- Outcome of TerminalDispatch::SetGraphicsRendition.  Its body lives in
  TerminalDispatchGraphics.cpp, which is not part of this source snapshot,
  so the boolean it returns is abstract here. -/
  setGraphicsRendition : Bool

/-- A dispatch method returns a success boolean and performs a list of API calls. -/
abbrev DispatchResult := Bool × List ApiCall

/-- TerminalDispatch::CursorVisibility: returns the API result. -/
def CursorVisibility (api : TerminalApi) (isVisible : Bool) : DispatchResult :=
  (api.setCursorVisibility isVisible, [ApiCall.setCursorVisibility isVisible])

/-- TerminalDispatch::SetCursorKeysMode: calls the API (void) and returns true. -/
def SetCursorKeysMode (_api : TerminalApi) (applicationMode : Bool) : DispatchResult :=
  (true, [ApiCall.setCursorKeysMode applicationMode])

/-- TerminalDispatch::SetKeypadMode: calls the API (void) and returns true. -/
def SetKeypadMode (_api : TerminalApi) (applicationMode : Bool) : DispatchResult :=
  (true, [ApiCall.setKeypadMode applicationMode])

/-- TerminalDispatch::SetGraphicsRendition with empty options, as invoked by
SoftReset.  The implementation is in TerminalDispatchGraphics.cpp (not in this
snapshot); its returned boolean is the abstract api.setGraphicsRendition. -/
def SetGraphicsRendition (api : TerminalApi) : DispatchResult :=
  (api.setGraphicsRendition, [ApiCall.setGraphicsRendition])

/-- TerminalDispatch::EraseInDisplay: returns the API result. -/
def EraseInDisplay (api : TerminalApi) (eraseType : EraseType) : DispatchResult :=
  (api.eraseInDisplay eraseType, [ApiCall.eraseInDisplay eraseType])

/-- TerminalDispatch::SetScreenMode: returns the API result. -/
def SetScreenMode (api : TerminalApi) (reverseMode : Bool) : DispatchResult :=
  (api.setScreenMode reverseMode, [ApiCall.setScreenMode reverseMode])

/-- TerminalDispatch::EnableCursorBlinking: returns the API result. -/
def EnableCursorBlinking (api : TerminalApi) (enable : Bool) : DispatchResult :=
  (api.enableCursorBlinking enable, [ApiCall.enableCursorBlinking enable])

/-- TerminalDispatch::EnableVT200MouseMode: calls the API (void) and returns true. -/
def EnableVT200MouseMode (_api : TerminalApi) (enabled : Bool) : DispatchResult :=
  (true, [ApiCall.enableVT200MouseMode enabled])

/-- TerminalDispatch::EnableButtonEventMouseMode: calls the API (void) and returns true. -/
def EnableButtonEventMouseMode (_api : TerminalApi) (enabled : Bool) : DispatchResult :=
  (true, [ApiCall.enableButtonEventMouseMode enabled])

/-- TerminalDispatch::EnableAnyEventMouseMode: calls the API (void) and returns true. -/
def EnableAnyEventMouseMode (_api : TerminalApi) (enabled : Bool) : DispatchResult :=
  (true, [ApiCall.enableAnyEventMouseMode enabled])

/-- TerminalDispatch::EnableUTF8ExtendedMouseMode: calls the API (void) and returns true. -/
def EnableUTF8ExtendedMouseMode (_api : TerminalApi) (enabled : Bool) : DispatchResult :=
  (true, [ApiCall.enableUTF8ExtendedMouseMode enabled])

/-- TerminalDispatch::EnableSGRExtendedMouseMode: calls the API (void) and returns true. -/
def EnableSGRExtendedMouseMode (_api : TerminalApi) (enabled : Bool) : DispatchResult :=
  (true, [ApiCall.enableSGRExtendedMouseMode enabled])

/-- TerminalDispatch::EnableAlternateScroll: calls the API (void) and returns true. -/
def EnableAlternateScroll (_api : TerminalApi) (enabled : Bool) : DispatchResult :=
  (true, [ApiCall.enableAlternateScrollMode enabled])

/-- TerminalDispatch::EnableWin32InputMode: calls the API (void) and returns true. -/
def EnableWin32InputMode (_api : TerminalApi) (win32Mode : Bool) : DispatchResult :=
  (true, [ApiCall.enableWin32InputMode win32Mode])

/-- TerminalDispatch::CursorPosition(line, column): converts the two size_t
parameters to SHORT (failing, and calling nothing, if a value exceeds
SHORT_MAX), subtracts one from each, and calls SetCursorPosition. -/
def CursorPosition (api : TerminalApi) (line column : Nat) : DispatchResult :=
  if line ≤ 32767 ∧ column ≤ 32767 then
    (api.setCursorPosition ((column : Int) - 1) ((line : Int) - 1),
      [ApiCall.setCursorPosition ((column : Int) - 1) ((line : Int) - 1)])
  else
    (false, [])

/-- TerminalDispatch::SoftReset: cursor visible, cursor keys normal, keypad
numeric, normal rendition; the result is the conjunction of the step results. -/
def SoftReset (api : TerminalApi) : DispatchResult :=
  let r1 := CursorVisibility api true
  let r2 := SetCursorKeysMode api false
  let r3 := SetKeypadMode api false
  let r4 := SetGraphicsRendition api
  (r4.1 && (r3.1 && (r2.1 && r1.1)), r1.2 ++ r2.2 ++ r3.2 ++ r4.2)

/-- TerminalDispatch::HardReset: soft reset, erase all, erase scrollback,
normal screen mode, cursor to 1,1; result is the conjunction of the steps. -/
def HardReset (api : TerminalApi) : DispatchResult :=
  let s := SoftReset api
  let e1 := EraseInDisplay api EraseType.All
  let e2 := EraseInDisplay api EraseType.Scrollback
  let m := SetScreenMode api false
  let c := CursorPosition api 1 1
  (c.1 && (m.1 && (e2.1 && (e1.1 && (s.1 && true)))),
    s.2 ++ e1.2 ++ e2.2 ++ m.2 ++ c.2)

/-- DispatchTypes::PrivateModeParams: the mode numbers recognized by the
switch in _PrivateModeParamsHelper, plus a catch-all for every other
private-mode number (the switch default). -/
inductive PrivateModeParams where
  | DECCKM_CursorKeysMode
  | DECSCNM_ScreenMode
  | VT200_MOUSE_MODE
  | BUTTON_EVENT_MOUSE_MODE
  | ANY_EVENT_MOUSE_MODE
  | UTF8_EXTENDED_MODE
  | SGR_EXTENDED_MODE
  | ALTERNATE_SCROLL
  | DECTCEM_TextCursorEnableMode
  | ATT610_StartCursorBlink
  | W32IM_Win32InputMode
  | other (modeNumber : Nat)
deriving DecidableEq, Repr

/-- TerminalDispatch::_PrivateModeParamsHelper: routes a private mode number
to the corresponding setter with the enable flag; unrecognized numbers fall
to the default case and fail. -/
def _PrivateModeParamsHelper (api : TerminalApi) (param : PrivateModeParams)
    (enable : Bool) : DispatchResult :=
  match param with
  | .DECCKM_CursorKeysMode => SetCursorKeysMode api enable
  | .DECSCNM_ScreenMode => SetScreenMode api enable
  | .VT200_MOUSE_MODE => EnableVT200MouseMode api enable
  | .BUTTON_EVENT_MOUSE_MODE => EnableButtonEventMouseMode api enable
  | .ANY_EVENT_MOUSE_MODE => EnableAnyEventMouseMode api enable
  | .UTF8_EXTENDED_MODE => EnableUTF8ExtendedMouseMode api enable
  | .SGR_EXTENDED_MODE => EnableSGRExtendedMouseMode api enable
  | .ALTERNATE_SCROLL => EnableAlternateScroll api enable
  | .DECTCEM_TextCursorEnableMode => CursorVisibility api enable
  | .ATT610_StartCursorBlink => EnableCursorBlinking api enable
  | .W32IM_Win32InputMode => EnableWin32InputMode api enable
  | .other _ => (false, [])

/-- TerminalDispatch::SetPrivateMode. -/
def SetPrivateMode (api : TerminalApi) (param : PrivateModeParams) : DispatchResult :=
  _PrivateModeParamsHelper api param true

/-- TerminalDispatch::ResetPrivateMode. -/
def ResetPrivateMode (api : TerminalApi) (param : PrivateModeParams) : DispatchResult :=
  _PrivateModeParamsHelper api param false

/-! ## Host API routines (src/host/getset.cpp)

The console state gathers the pieces of SCREEN_INFORMATION and
CONSOLE_INFORMATION that the routines below read or write.  Buffer row
contents are carried as an abstract list of rows so that "the buffer is
unchanged" is part of state equality.  Subroutines implemented outside
this snapshot (buffer cursor placement, viewport clamping, VT I/O,
resize/reflow, scrolling) are function parameters of the routines, so
every theorem holds for all of their behaviours. -/

/-- State touched by ApiRoutines::SetConsoleCursorPositionImpl and
DoSrvPrivateSetColorTableEntry. -/
structure ConsoleState where
  /-- Dimensions of the active screen buffer. -/
  bufferSize : COORD
  /-- Current cursor position. -/
  cursor : COORD
  /-- Visible viewport, inclusive. -/
  viewport : SMALL_RECT
  /-- Virtual viewport used in terminal-scrolling mode, inclusive. -/
  virtualViewport : SMALL_RECT
  /-- Whether the console is in terminal-scrolling mode. -/
  terminalScrolling : Bool
  /-- The global 256-entry color table. -/
  colorTable : List Int
  /-- Abstract buffer contents, one entry per row. -/
  rows : List (List Int)
deriving DecidableEq, Repr

/-- Signature of a subroutine that may fail and update the console state. -/
abbrev ConsoleOp := ConsoleState → COORD → HResult × ConsoleState

/-- ApiRoutines::SetConsoleCursorPositionImpl: rejects a position outside the
screen buffer with E_INVALIDARG before anything is touched; otherwise runs the
VT I/O inheritance call, places the cursor in the buffer, and snaps the
viewport toward the cursor with the delta computation of the source. -/
def SetConsoleCursorPositionImpl (vtioSetCursorPosition : COORD → HResult)
    (bufferSetCursorPosition : ConsoleOp) (setViewportOrigin : ConsoleOp)
    (s : ConsoleState) (position : COORD) : HResult × ConsoleState :=
  let coordScreenBufferSize := s.bufferSize
  if position.X ≥ coordScreenBufferSize.X ∨ position.Y ≥ coordScreenBufferSize.Y ∨
      position.X < 0 ∨ position.Y < 0 then
    (E_INVALIDARG, s)
  else
    let hr := vtioSetCursorPosition position
    if hr < 0 then (hr, s)
    else
      let r1 := bufferSetCursorPosition s position
      if r1.1 < 0 then (r1.1, r1.2)
      else
        let s1 := r1.2
        let currentViewport := if s1.terminalScrolling then s1.virtualViewport else s1.viewport
        let deltaX : Int :=
          if currentViewport.Left > position.X then position.X - currentViewport.Left
          else if currentViewport.Right < position.X then position.X - currentViewport.Right
          else 0
        let deltaY : Int :=
          if currentViewport.Top > position.Y then position.Y - currentViewport.Top
          else if currentViewport.Bottom < position.Y then position.Y - currentViewport.Bottom
          else 0
        let newWindowOrigin : COORD :=
          ⟨currentViewport.Left + deltaX, currentViewport.Top + deltaY⟩
        let r2 := setViewportOrigin s1 newWindowOrigin
        if r2.1 < 0 then (r2.1, r2.2) else (S_OK, r2.2)

/-- DoSrvPrivateSetColorTableEntry: rejects an index of 256 or more with
E_INVALIDARG before anything is touched; otherwise stores the value at the
Windows-order position of the given xterm index (Xterm256ToWindowsIndex is
outside this snapshot and is a parameter here). -/
def DoSrvPrivateSetColorTableEntry (xterm256ToWindowsIndex : Nat → Nat)
    (s : ConsoleState) (index : Nat) (value : Int) : HResult × ConsoleState :=
  if 256 ≤ index then (E_INVALIDARG, s)
  else
    (S_OK, { s with colorTable := s.colorTable.set (xterm256ToWindowsIndex index) value })

/-- State touched by ApiRoutines::SetConsoleScreenBufferSizeImpl. -/
structure ScreenBufferState where
  /-- Dimensions of the screen buffer. -/
  bufferSize : COORD
  /-- Width of the current viewport window. -/
  viewportWidth : Int
  /-- Height of the current viewport window. -/
  viewportHeight : Int
  /-- Minimum window size in characters, checked when not headless. -/
  minWindowSize : COORD
  /-- Whether the console is headless. -/
  headless : Bool
  /-- Abstract buffer contents, one entry per row. -/
  rows : List (List Int)
deriving DecidableEq, Repr

/-- ApiRoutines::SetConsoleScreenBufferSizeImpl: rejects sizes smaller than
the viewport, sizes below the minimum window when not headless, and sizes
with a dimension equal to SHORT_MAX, all with E_INVALIDARG and before any
mutation; only when the requested size differs from the current one does it
invoke the resize (SCREEN_INFORMATION::ResizeScreenBuffer, a parameter here). -/
def SetConsoleScreenBufferSizeImpl
    (resizeScreenBuffer : ScreenBufferState → COORD → HResult × ScreenBufferState)
    (s : ScreenBufferState) (size : COORD) : HResult × ScreenBufferState :=
  if size.X < s.viewportWidth ∨ size.Y < s.viewportHeight then (E_INVALIDARG, s)
  else if ¬s.headless ∧ (size.Y < s.minWindowSize.Y ∨ size.X < s.minWindowSize.X) then
    (E_INVALIDARG, s)
  else if size.X = SHORT_MAX ∨ size.Y = SHORT_MAX then (E_INVALIDARG, s)
  else if size.X ≠ s.bufferSize.X ∨ size.Y ≠ s.bufferSize.Y then resizeScreenBuffer s size
  else (S_OK, s)

/-- State touched by DoSrvPrivateReverseLineFeed. -/
structure ReverseFeedState where
  /-- Visible viewport, inclusive. -/
  viewport : SMALL_RECT
  /-- Current cursor position. -/
  cursor : COORD
  /-- Whether DECSTBM scroll margins are set. -/
  marginsSet : Bool
  /-- Absolute top margin row, meaningful when marginsSet. -/
  marginTop : Int
  /-- Absolute bottom margin row, meaningful when marginsSet. -/
  marginBottom : Int
  /-- Abstract buffer contents, one entry per row. -/
  rows : List (List Int)
deriving DecidableEq, Repr

/-- Modelled from the spec: SCREEN_INFORMATION::IsCursorInMargins is not under
src/; per the call-site comment in DoSrvPrivateReverseLineFeed it is true when
no margins are set, or when the cursor row lies within the margin boundaries. -/
def IsCursorInMargins (s : ReverseFeedState) (cursorPosition : COORD) : Bool :=
  !s.marginsSet || (decide (s.marginTop ≤ cursorPosition.Y) &&
    decide (cursorPosition.Y ≤ s.marginBottom))

/-- DoSrvPrivateReverseLineFeed: moves the cursor up one line when it is below
the top of the viewport; at the top of the viewport it scrolls the region down
by one only when the cursor is inside the margins; otherwise it does nothing
and reports success.  AdjustCursorPosition and DoSrvPrivateScrollRegion are
outside this snapshot and are parameters. -/
def DoSrvPrivateReverseLineFeed
    (adjustCursorPosition : ReverseFeedState → COORD → HResult × ReverseFeedState)
    (scrollRegion : ReverseFeedState → SMALL_RECT → COORD → HResult × ReverseFeedState)
    (s : ReverseFeedState) : HResult × ReverseFeedState :=
  let viewport := s.viewport
  let oldCursorPosition := s.cursor
  let newCursorPosition : COORD := ⟨oldCursorPosition.X, oldCursorPosition.Y - 1⟩
  if oldCursorPosition.Y > viewport.Top then
    adjustCursorPosition s newCursorPosition
  else if IsCursorInMargins s oldCursorPosition then
    let srScroll : SMALL_RECT :=
      ⟨0, viewport.Top, SHORT_MAX,
        if s.marginsSet then s.marginBottom else viewport.Bottom⟩
    let coordDestination : COORD := ⟨0, viewport.Top + 1⟩
    scrollRegion s srScroll coordDestination
  else
    (STATUS_SUCCESS, s)

/-! ## Selection engine (src/host/selection.cpp)

The SelectionState record mirrors the member fields of the Selection
singleton that the selection operations read and write: the visibility
flag, the anchor, the selection rectangle, the line/alternate mode
flags, the two selection flag bits consulted by the code
(CONSOLE_MOUSE_SELECTION and CONSOLE_SELECTION_NOT_EMPTY), the
selecting-state bit of the console flags, and the drag permission flag.
Painting, accessibility notification and window title updates have no
effect on this state and are omitted. -/

structure SelectionState where
  fSelectionVisible : Bool
  coordSelectionAnchor : COORD
  srSelectionRect : SMALL_RECT
  fLineSelection : Bool
  fUseAlternateSelection : Bool
  /-- CONSOLE_MOUSE_SELECTION bit of the selection flags. -/
  mouseInitiated : Bool
  /-- CONSOLE_SELECTION_NOT_EMPTY bit of the selection flags. -/
  notEmpty : Bool
  /-- CONSOLE_SELECTING bit of the console flags (IsInSelectingState). -/
  selecting : Bool
  allowMouseDragSelection : Bool
deriving DecidableEq, Repr

/-- Selection::IsInSelectingState. -/
def IsInSelectingState (s : SelectionState) : Bool := s.selecting

/-- Selection::IsAreaSelected: the CONSOLE_SELECTION_NOT_EMPTY flag. -/
def IsAreaSelected (s : SelectionState) : Bool := s.notEmpty

/-- Selection::IsMouseInitiatedSelection: the CONSOLE_MOUSE_SELECTION flag. -/
def IsMouseInitiatedSelection (s : SelectionState) : Bool := s.mouseInitiated

/-- Modelled from the spec: Selection::IsLineSelection is not under src/;
per the source comment in InitializeMouseSelection (alternate selection
swaps box mode and line mode), the effective mode is line selection
exactly when the line flag and the alternate flag differ. -/
def IsLineSelection (s : SelectionState) : Bool :=
  s.fLineSelection != s.fUseAlternateSelection

/-- The state constructed by Selection::Selection(): nothing visible, no
flags, zeroed anchor and rectangle, line selection mode. -/
def Selection.initial : SelectionState :=
  { fSelectionVisible := false
    coordSelectionAnchor := ⟨0, 0⟩
    srSelectionRect := ⟨0, 0, 0, 0⟩
    fLineSelection := true
    fUseAlternateSelection := false
    mouseInitiated := false
    notEmpty := false
    selecting := false
    allowMouseDragSelection := true }

/-- Selection::_SetSelectionVisibility: only effective while in selecting
state with a selected area, and only when the flag actually changes. -/
def _SetSelectionVisibility (s : SelectionState) (fMakeVisible : Bool) : SelectionState :=
  if IsInSelectingState s && IsAreaSelected s then
    if fMakeVisible == s.fSelectionVisible then s
    else { s with fSelectionVisible := fMakeVisible }
  else s

/-- Selection::ShowSelection. -/
def ShowSelection (s : SelectionState) : SelectionState :=
  _SetSelectionVisibility s true

/-- Selection::InitializeMouseSelection: enters selecting state with the
mouse and not-empty flags, anchors at the given position with a 1x1
rectangle, and applies the ALT-key alternate selection toggle
(CheckAndSetAlternateSelection, which reads the keyboard outside this
snapshot; the pressed state is the altPressed parameter). -/
def InitializeMouseSelection (s : SelectionState) (coordBufferPos : COORD)
    (altPressed : Bool) : SelectionState :=
  { s with
    selecting := true
    mouseInitiated := true
    notEmpty := true
    coordSelectionAnchor := coordBufferPos
    srSelectionRect :=
      ⟨coordBufferPos.X, coordBufferPos.Y, coordBufferPos.X, coordBufferPos.Y⟩
    fUseAlternateSelection := altPressed }

/-- Modelled from the spec: Viewport::Clamp on the terminal buffer size is
not under src/; the spec says ExtendSelection clamps the position to the
buffer bounds, not less than zero and not beyond the buffer dimensions. -/
def clampToBuffer (c : COORD) (bufW bufH : Int) : COORD :=
  ⟨min (max c.X 0) (bufW - 1), min (max c.Y 0) (bufH - 1)⟩

/-- The rectangle update at the end of Selection::ExtendSelection: each axis
of the rectangle is recomputed by comparing the position against the anchor. -/
def extendSelectionRect (s : SelectionState) (coordBufferPos : COORD) : SelectionState :=
  let a := s.coordSelectionAnchor
  let r0 := s.srSelectionRect
  let r1 :=
    if coordBufferPos.X ≤ a.X then { r0 with Left := coordBufferPos.X, Right := a.X }
    else { r0 with Right := coordBufferPos.X, Left := a.X }
  let r2 :=
    if coordBufferPos.Y ≤ a.Y then { r1 with Top := coordBufferPos.Y, Bottom := a.Y }
    else { r1 with Bottom := coordBufferPos.Y, Top := a.Y }
  { s with srSelectionRect := r2 }

/-- Selection::ExtendSelection: clamps the position to the buffer bounds;
with no selected area yet it returns unchanged for mouse-initiated
selections, and otherwise (mark mode) marks the area not empty, collapses
the rectangle onto the anchor and shows the selection; finally the
rectangle is recomputed against the anchor.  Scrolling the viewport to
make the position visible does not touch the selection state. -/
def ExtendSelection (s0 : SelectionState) (coordBufferPos : COORD)
    (bufW bufH : Int) : SelectionState :=
  let s := { s0 with allowMouseDragSelection := true }
  let pos := clampToBuffer coordBufferPos bufW bufH
  if !IsAreaSelected s then
    if IsMouseInitiatedSelection s then s
    else
      let s1 := { s with
        notEmpty := true
        srSelectionRect :=
          ⟨s.coordSelectionAnchor.X, s.coordSelectionAnchor.Y,
            s.coordSelectionAnchor.X, s.coordSelectionAnchor.Y⟩ }
      extendSelectionRect (ShowSelection s1) pos
  else
    extendSelectionRect s pos

/-- Modelled from the spec: TextBuffer::GetTextRects is not under src/.
Given two buffer coordinates it produces one inclusive rectangle per row
of the span: in block mode every row spans the same column range between
the smaller and larger X; in line mode a single-row span runs between the
two columns in text order, and a multi-row span has the first row partial
to the right edge, the last row partial from column zero, and the middle
rows covering the full width. -/
def GetTextRects (start stop : COORD) (blockMode : Bool)
    (rightInclusive : Int) : List SMALL_RECT :=
  let startFirst := start.Y < stop.Y ∨ (start.Y = stop.Y ∧ start.X ≤ stop.X)
  let first := if startFirst then start else stop
  let last := if startFirst then stop else start
  let height := (last.Y - first.Y).toNat + 1
  (List.range height).map fun i =>
    let r := first.Y + Int.ofNat i
    if blockMode then
      ⟨min start.X stop.X, r, max start.X stop.X, r⟩
    else if first.Y = last.Y then ⟨first.X, r, last.X, r⟩
    else if r = first.Y then ⟨first.X, r, rightInclusive, r⟩
    else if r = last.Y then ⟨0, r, last.X, r⟩
    else ⟨0, r, rightInclusive, r⟩

/-- The opposite corner of the selection rectangle from the anchor, as
computed at the start of Selection::GetSelectionRects. -/
def endSelectionAnchor (s : SelectionState) : COORD :=
  ⟨if s.coordSelectionAnchor.X = s.srSelectionRect.Left then s.srSelectionRect.Right
    else s.srSelectionRect.Left,
    if s.coordSelectionAnchor.Y = s.srSelectionRect.Top then s.srSelectionRect.Bottom
    else s.srSelectionRect.Top⟩

/-- Selection::GetSelectionRects: empty when the selection is not visible;
otherwise the per-row rectangles between the anchor and the opposite
corner, in block mode when not line selection. -/
def GetSelectionRects (s : SelectionState) (rightInclusive : Int) : List SMALL_RECT :=
  if !s.fSelectionVisible then []
  else
    GetTextRects s.coordSelectionAnchor (endSelectionAnchor s)
      (!IsLineSelection s) rightInclusive

/-! ## TextColor (src/buffer/out/TextColor.h) -/

/-- ColorType: the two-bit tag of a TextColor. -/
inductive ColorType where
  | IsIndex256
  | IsIndex16
  | IsDefault
  | IsRgb
deriving DecidableEq, Repr

/-- A COLORREF in 0x00BBGGRR layout, as a natural number. -/
abbrev COLORREF := Nat

/-- Red component (low byte) of a COLORREF. -/
def GetRValue (rgb : COLORREF) : Nat := rgb % 256

/-- Green component (middle byte) of a COLORREF. -/
def GetGValue (rgb : COLORREF) : Nat := rgb / 256 % 256

/-- Blue component (high byte) of a COLORREF. -/
def GetBValue (rgb : COLORREF) : Nat := rgb / 65536 % 256

/-- TextColor: the tag plus the three payload bytes; the first byte is the
red component for RGB colors and the table index for indexed colors (they
share storage in the source union). -/
structure TextColor where
  meta : ColorType
  red : Nat
  green : Nat
  blue : Nat
deriving DecidableEq, Repr

/-- The index payload is the first byte (union alias of red). -/
def TextColor.GetIndex (c : TextColor) : Nat := c.red

/-- TextColor::TextColor(): a default color. -/
def TextColor.default : TextColor := ⟨ColorType.IsDefault, 0, 0, 0⟩

/-- TextColor::TextColor(index, isIndex256). -/
def TextColor.fromIndex (index : Nat) (isIndex256 : Bool) : TextColor :=
  ⟨if isIndex256 then ColorType.IsIndex256 else ColorType.IsIndex16, index, 0, 0⟩

/-- TextColor::TextColor(rgb). -/
def TextColor.fromRgb (rgb : COLORREF) : TextColor :=
  ⟨ColorType.IsRgb, GetRValue rgb, GetGValue rgb, GetBValue rgb⟩

/-- TextColor::GetRGB: reassembles the stored r, g, b into a COLORREF. -/
def TextColor.GetRGB (c : TextColor) : COLORREF :=
  c.red + c.green * 256 + c.blue * 65536

/-- Modelled from the spec: the body of TextColor::CanBeBrightened is not
under src/; the spec states it is true only for Indexed16 colors 0 to 7. -/
def TextColor.CanBeBrightened (c : TextColor) : Bool :=
  c.meta == ColorType.IsIndex16 && decide (c.GetIndex ≤ 7)

/-- Modelled from the spec: the body of TextColor::GetColor (TextColor.cpp)
is not under src/.  Per the spec it resolves Default to the supplied
default color, an indexed color to the color table entry at its index with
a fixed luminance offset added only when brightening is requested and the
color is a legacy 16-color index 0 to 7, and an RGB color to its stored
value directly.  The unspecified fixed offset is the parameter
luminanceOffset, so theorems hold for every choice of it. -/
def TextColor.GetColor (c : TextColor) (colorTable : List COLORREF)
    (defaultColor : COLORREF) (brighten : Bool) (luminanceOffset : Nat) : COLORREF :=
  match c.meta with
  | ColorType.IsDefault => defaultColor
  | ColorType.IsRgb => c.GetRGB
  | _ =>
    let base := colorTable.getD c.GetIndex 0
    if brighten && c.CanBeBrightened then base + luminanceOffset else base

/-- Modelled from the spec: the color-table write of the spec example
(SetColorTableEntry on the TerminalCore color table) is not under src/;
it stores the value at the given index of the 256-entry table. -/
def SetColorTableEntry (colorTable : List COLORREF) (tableIndex : Nat)
    (value : COLORREF) : List COLORREF :=
  colorTable.set tableIndex value

/-! ## HwndTerminal mouse clicks (src/cascadia/PublicTerminalCore/HwndTerminal.cpp)

The click state mirrors the HwndTerminal members used by _NumberOfClicks
and _StartSelection.  Timestamps are integer tick counts of the steady
clock. -/

structure HwndTerminalState where
  lastMouseClickPos : COORD
  lastMouseClickTimestamp : Int
  multiClickCounter : Nat
  /-- The configured multi-click time interval, in ticks. -/
  multiClickTime : Int
  singleClickTouchdownPos : Option COORD
deriving DecidableEq, Repr

/-- HwndTerminal::_NumberOfClicks: resets the click counter to one when the
click moved or came after more than the multi-click time, and increments it
otherwise; returns the updated counter. -/
def _NumberOfClicks (st : HwndTerminalState) (point : COORD)
    (timestamp : Int) : Nat × HwndTerminalState :=
  let delta := timestamp - st.lastMouseClickTimestamp
  if point ≠ st.lastMouseClickPos ∨ delta > st.multiClickTime then
    (1, { st with multiClickCounter := 1 })
  else
    (st.multiClickCounter + 1, { st with multiClickCounter := st.multiClickCounter + 1 })

/-- What a press in _StartSelection does to the selection: start a drag, or
expand by word (double click), or expand by line (triple click). -/
inductive SelectionAction where
  | drag
  | word
  | line
deriving DecidableEq, Repr

/-- The MAX_CLICK_COUNT constant of HwndTerminal::_StartSelection. -/
def MAX_CLICK_COUNT : Nat := 3

/-- The multiClickMapper expression of HwndTerminal::_StartSelection. -/
def multiClickMapper (clickCount : Nat) : Nat :=
  if clickCount > MAX_CLICK_COUNT then
    ((clickCount + MAX_CLICK_COUNT - 1) % MAX_CLICK_COUNT) + 1
  else clickCount

/-- HwndTerminal::_StartSelection: counts the click, maps the count, and
either multi-click-selects by line (3) or word (2), or clears the selection
and starts a drag, recording the touchdown position and refreshing the
last-click position and timestamp (taken a moment after the click, the
timestampAfter parameter). -/
def _StartSelection (st : HwndTerminalState) (cursorPosition : COORD)
    (timestamp timestampAfter : Int) : SelectionAction × HwndTerminalState :=
  let r := _NumberOfClicks st cursorPosition timestamp
  let clickCount := r.1
  let st1 := r.2
  let mapped := multiClickMapper clickCount
  if mapped = 3 then (SelectionAction.line, st1)
  else if mapped = 2 then (SelectionAction.word, st1)
  else
    (SelectionAction.drag,
      { st1 with
        singleClickTouchdownPos := some cursorPosition
        lastMouseClickTimestamp := timestampAfter
        lastMouseClickPos := cursorPosition })

/-! ## Theorems -/

/-- C2: HardReset performs, in this exact order, soft reset, erase-in-display
All, erase-in-display Scrollback, set screen mode to normal, and cursor to
position 1,1; and for every combination of sub-operation outcomes its returned
success value is the conjunction of the sub-operations success values. -/
theorem hardReset_order_and_conjunction (api : TerminalApi) :
    HardReset api =
      ((SoftReset api).1 && (EraseInDisplay api EraseType.All).1 &&
          (EraseInDisplay api EraseType.Scrollback).1 && (SetScreenMode api false).1 &&
          (CursorPosition api 1 1).1,
        (SoftReset api).2 ++ (EraseInDisplay api EraseType.All).2 ++
          (EraseInDisplay api EraseType.Scrollback).2 ++ (SetScreenMode api false).2 ++
          (CursorPosition api 1 1).2) := by
  cases hv : api.setCursorVisibility true <;>
    cases hg : api.setGraphicsRendition <;>
      cases he1 : api.eraseInDisplay EraseType.All <;>
        cases he2 : api.eraseInDisplay EraseType.Scrollback <;>
          cases hm : api.setScreenMode false <;>
            simp [HardReset, SoftReset, EraseInDisplay, SetScreenMode, CursorPosition,
              CursorVisibility, SetCursorKeysMode, SetKeypadMode, SetGraphicsRendition,
              hv, hg, he1, he2, hm]

/-- C3: SetPrivateMode and ResetPrivateMode route through the parameterized
helper; every unrecognized private-mode number fails in both directions with
no API call, and every recognized mode number invokes exactly the
corresponding boolean setter with the set/reset flag. -/
theorem privateMode_routing (api : TerminalApi) (modeNumber : Nat)
    (param : PrivateModeParams) (enable : Bool) :
    SetPrivateMode api param = _PrivateModeParamsHelper api param true ∧
    ResetPrivateMode api param = _PrivateModeParamsHelper api param false ∧
    _PrivateModeParamsHelper api (PrivateModeParams.other modeNumber) enable = (false, []) ∧
    (_PrivateModeParamsHelper api PrivateModeParams.DECCKM_CursorKeysMode enable).2 =
      [ApiCall.setCursorKeysMode enable] ∧
    (_PrivateModeParamsHelper api PrivateModeParams.DECSCNM_ScreenMode enable).2 =
      [ApiCall.setScreenMode enable] ∧
    (_PrivateModeParamsHelper api PrivateModeParams.VT200_MOUSE_MODE enable).2 =
      [ApiCall.enableVT200MouseMode enable] ∧
    (_PrivateModeParamsHelper api PrivateModeParams.BUTTON_EVENT_MOUSE_MODE enable).2 =
      [ApiCall.enableButtonEventMouseMode enable] ∧
    (_PrivateModeParamsHelper api PrivateModeParams.ANY_EVENT_MOUSE_MODE enable).2 =
      [ApiCall.enableAnyEventMouseMode enable] ∧
    (_PrivateModeParamsHelper api PrivateModeParams.UTF8_EXTENDED_MODE enable).2 =
      [ApiCall.enableUTF8ExtendedMouseMode enable] ∧
    (_PrivateModeParamsHelper api PrivateModeParams.SGR_EXTENDED_MODE enable).2 =
      [ApiCall.enableSGRExtendedMouseMode enable] ∧
    (_PrivateModeParamsHelper api PrivateModeParams.ALTERNATE_SCROLL enable).2 =
      [ApiCall.enableAlternateScrollMode enable] ∧
    (_PrivateModeParamsHelper api PrivateModeParams.DECTCEM_TextCursorEnableMode enable).2 =
      [ApiCall.setCursorVisibility enable] ∧
    (_PrivateModeParamsHelper api PrivateModeParams.ATT610_StartCursorBlink enable).2 =
      [ApiCall.enableCursorBlinking enable] ∧
    (_PrivateModeParamsHelper api PrivateModeParams.W32IM_Win32InputMode enable).2 =
      [ApiCall.enableWin32InputMode enable] :=
  ⟨rfl, rfl, rfl, rfl, rfl, rfl, rfl, rfl, rfl, rfl, rfl, rfl, rfl, rfl⟩

/-- C10: for every click count of at least one, the multiClickMapper value of
_StartSelection lies in one, two, three and equals the count minus one, modulo
three, plus one, so clicking cycles with period three. -/
theorem multiClickMapper_cycles (n : Nat) (h : 1 ≤ n) :
    multiClickMapper n = (n - 1) % 3 + 1 ∧
      (multiClickMapper n = 1 ∨ multiClickMapper n = 2 ∨ multiClickMapper n = 3) := by
  have hmain : multiClickMapper n = (n - 1) % 3 + 1 := by
    unfold multiClickMapper MAX_CLICK_COUNT
    split <;> omega
  exact ⟨hmain, by omega⟩

/-- Witness for C10: a fourth rapid click maps back to a single click. -/
theorem multiClickMapper_cycles_witness :
    1 ≤ 4 ∧ (multiClickMapper 4 = (4 - 1) % 3 + 1 ∧
      (multiClickMapper 4 = 1 ∨ multiClickMapper 4 = 2 ∨ multiClickMapper 4 = 3)) :=
  ⟨by decide, multiClickMapper_cycles 4 (by decide)⟩

/-- C1: a cursor-position request outside the buffer bounds, and a color-table
write with index at least 256, both fail with E_INVALIDARG and leave the whole
console state (cursor, color table, buffer contents) exactly as it was, for
every behaviour of the downstream subroutines. -/
theorem outOfRange_cursor_and_colorTable_unchanged
    (vtioSetCursorPosition : COORD → HResult)
    (bufferSetCursorPosition setViewportOrigin : ConsoleOp)
    (xterm256ToWindowsIndex : Nat → Nat)
    (s : ConsoleState) (position : COORD) (index : Nat) (value : Int)
    (hpos : position.X < 0 ∨ position.Y < 0 ∨
      position.X ≥ s.bufferSize.X ∨ position.Y ≥ s.bufferSize.Y)
    (hindex : 256 ≤ index) :
    SetConsoleCursorPositionImpl vtioSetCursorPosition bufferSetCursorPosition
      setViewportOrigin s position = (E_INVALIDARG, s) ∧
    DoSrvPrivateSetColorTableEntry xterm256ToWindowsIndex s index value =
      (E_INVALIDARG, s) := by
  constructor
  · have hcond : position.X ≥ s.bufferSize.X ∨ position.Y ≥ s.bufferSize.Y ∨
        position.X < 0 ∨ position.Y < 0 := by tauto
    simp only [SetConsoleCursorPositionImpl]
    rw [if_pos hcond]
  · simp only [DoSrvPrivateSetColorTableEntry]
    rw [if_pos hindex]

/-- A concrete console state used by the out-of-range witness. -/
def consoleStateExample : ConsoleState :=
  { bufferSize := ⟨80, 25⟩
    cursor := ⟨0, 0⟩
    viewport := ⟨0, 0, 79, 24⟩
    virtualViewport := ⟨0, 0, 79, 24⟩
    terminalScrolling := false
    colorTable := List.replicate 256 0
    rows := [] }

/-- Witness for C1: on an 80 by 25 buffer, the position 80,0 and the color
index 256 are both rejected without touching the state. -/
theorem outOfRange_cursor_and_colorTable_unchanged_witness :
    ((80 : Int) < 0 ∨ (0 : Int) < 0 ∨ (80 : Int) ≥ consoleStateExample.bufferSize.X ∨
        (0 : Int) ≥ consoleStateExample.bufferSize.Y) ∧
      256 ≤ 256 ∧
      (SetConsoleCursorPositionImpl (fun _ => 0) (fun s _ => (0, s)) (fun s _ => (0, s))
          consoleStateExample ⟨80, 0⟩ = (E_INVALIDARG, consoleStateExample) ∧
        DoSrvPrivateSetColorTableEntry id consoleStateExample 256 0 =
          (E_INVALIDARG, consoleStateExample)) :=
  ⟨by decide, by decide,
    outOfRange_cursor_and_colorTable_unchanged (fun _ => 0) (fun s _ => (0, s))
      (fun s _ => (0, s)) id consoleStateExample ⟨80, 0⟩ 256 0 (by decide) (by decide)⟩

/-- C7: a screen-buffer resize request with a dimension smaller than the
current viewport, or equal to the maximum representable SHORT, fails with
E_INVALIDARG and leaves the buffer exactly as it was, for every behaviour of
the resize subroutine. -/
theorem setConsoleScreenBufferSize_rejects_impossible
    (resizeScreenBuffer : ScreenBufferState → COORD → HResult × ScreenBufferState)
    (s : ScreenBufferState) (size : COORD)
    (h : size.X < s.viewportWidth ∨ size.Y < s.viewportHeight ∨
      size.X = SHORT_MAX ∨ size.Y = SHORT_MAX) :
    SetConsoleScreenBufferSizeImpl resizeScreenBuffer s size = (E_INVALIDARG, s) := by
  unfold SetConsoleScreenBufferSizeImpl
  by_cases h1 : size.X < s.viewportWidth ∨ size.Y < s.viewportHeight
  · rw [if_pos h1]
  · rw [if_neg h1]
    by_cases h2 : ¬s.headless ∧ (size.Y < s.minWindowSize.Y ∨ size.X < s.minWindowSize.X)
    · rw [if_pos h2]
    · rw [if_neg h2]
      have h3 : size.X = SHORT_MAX ∨ size.Y = SHORT_MAX := by tauto
      rw [if_pos h3]

/-- A concrete screen-buffer state used by the resize witness. -/
def screenBufferStateExample : ScreenBufferState :=
  { bufferSize := ⟨80, 25⟩
    viewportWidth := 80
    viewportHeight := 25
    minWindowSize := ⟨1, 1⟩
    headless := true
    rows := [] }

/-- Witness for C7: requesting a width of SHORT_MAX is rejected and the
buffer keeps its 80 by 25 dimensions. -/
theorem setConsoleScreenBufferSize_rejects_impossible_witness :
    ((32767 : Int) < screenBufferStateExample.viewportWidth ∨
        (25 : Int) < screenBufferStateExample.viewportHeight ∨
        (32767 : Int) = SHORT_MAX ∨ (25 : Int) = SHORT_MAX) ∧
      SetConsoleScreenBufferSizeImpl (fun s _ => (0, s)) screenBufferStateExample
        ⟨32767, 25⟩ = (E_INVALIDARG, screenBufferStateExample) :=
  ⟨by decide,
    setConsoleScreenBufferSize_rejects_impossible (fun s _ => (0, s))
      screenBufferStateExample ⟨32767, 25⟩ (by decide)⟩

/-- C9: a reverse line feed with the cursor on the top viewport row, margins
set, and the cursor outside those margins, is a complete no-op returning
success, for every behaviour of the cursor-adjust and scroll subroutines. -/
theorem reverseLineFeed_outside_margins_noop
    (adjustCursorPosition : ReverseFeedState → COORD → HResult × ReverseFeedState)
    (scrollRegion : ReverseFeedState → SMALL_RECT → COORD → HResult × ReverseFeedState)
    (s : ReverseFeedState)
    (htop : s.cursor.Y = s.viewport.Top)
    (hset : s.marginsSet = true)
    (hout : s.cursor.Y < s.marginTop ∨ s.marginBottom < s.cursor.Y) :
    DoSrvPrivateReverseLineFeed adjustCursorPosition scrollRegion s =
      (STATUS_SUCCESS, s) := by
  have h1 : ¬s.cursor.Y > s.viewport.Top := by omega
  have h2 : ¬IsCursorInMargins s s.cursor = true := by
    simp only [IsCursorInMargins, hset, Bool.not_true, Bool.false_or, Bool.and_eq_true,
      decide_eq_true_eq]
    omega
  simp only [DoSrvPrivateReverseLineFeed]
  rw [if_neg h1, if_neg h2]

/-- A concrete state used by the reverse-line-feed witness: cursor at the top
of the viewport, margins set to rows 5 through 10, cursor at row 0. -/
def reverseFeedStateExample : ReverseFeedState :=
  { viewport := ⟨0, 0, 79, 24⟩
    cursor := ⟨3, 0⟩
    marginsSet := true
    marginTop := 5
    marginBottom := 10
    rows := [] }

/-- Witness for C9: with margins 5 through 10 and the cursor at the top row 0,
reverse line feed returns success and changes nothing. -/
theorem reverseLineFeed_outside_margins_noop_witness :
    reverseFeedStateExample.cursor.Y = reverseFeedStateExample.viewport.Top ∧
      reverseFeedStateExample.marginsSet = true ∧
      (reverseFeedStateExample.cursor.Y < reverseFeedStateExample.marginTop ∨
        reverseFeedStateExample.marginBottom < reverseFeedStateExample.cursor.Y) ∧
      DoSrvPrivateReverseLineFeed (fun s _ => (0, s)) (fun s _ _ => (0, s))
        reverseFeedStateExample = (STATUS_SUCCESS, reverseFeedStateExample) :=
  ⟨by decide, by decide, by decide,
    reverseLineFeed_outside_margins_noop (fun s _ => (0, s)) (fun s _ _ => (0, s))
      reverseFeedStateExample (by decide) (by decide) (by decide)⟩

/-- C6: GetColor resolves by tag: Default gives the supplied default color;
Indexed16 and Indexed256 give the table entry at the index, the luminance
offset being added only when brightening is requested and the color is a
legacy 16-color index 0 to 7; RGB gives the stored value unchanged; and in
particular writing 0x0000FF to table entry 1 makes the Indexed16 color 1
resolve to 0x0000FF. -/
theorem textColor_getColor_resolution (table : List COLORREF)
    (defaultColor : COLORREF) (brighten : Bool) (luminanceOffset : Nat)
    (idx : Nat) (rgb : COLORREF) :
    TextColor.default.GetColor table defaultColor brighten luminanceOffset =
      defaultColor ∧
    (TextColor.fromIndex idx false).GetColor table defaultColor brighten
        luminanceOffset =
      (if brighten && decide (idx ≤ 7) then table.getD idx 0 + luminanceOffset
        else table.getD idx 0) ∧
    (TextColor.fromIndex idx true).GetColor table defaultColor brighten
        luminanceOffset = table.getD idx 0 ∧
    (TextColor.fromRgb rgb).GetColor table defaultColor brighten luminanceOffset =
      (TextColor.fromRgb rgb).GetRGB ∧
    (TextColor.fromIndex 1 false).GetColor
        (SetColorTableEntry (List.replicate 256 0) 1 0x0000FF) defaultColor false
        luminanceOffset = 0x0000FF := by
  refine ⟨rfl, ?_, ?_, rfl, ?_⟩
  · simp [TextColor.GetColor, TextColor.fromIndex, TextColor.CanBeBrightened,
      TextColor.GetIndex]
  · simp [TextColor.GetColor, TextColor.fromIndex, TextColor.CanBeBrightened,
      TextColor.GetIndex]
  · rfl

/-- C8: a click at the previous position within the multi-click interval
increments the click counter, a count of two selects by word and a count of
three selects by line rather than starting a drag; a moved or late click
resets the counter to one and starts a normal drag selection. -/
theorem multiClick_semantics (st : HwndTerminalState) (point : COORD)
    (timestamp timestampAfter : Int) :
    (point = st.lastMouseClickPos ∧
        timestamp - st.lastMouseClickTimestamp ≤ st.multiClickTime →
      (_NumberOfClicks st point timestamp).1 = st.multiClickCounter + 1) ∧
    (point ≠ st.lastMouseClickPos ∨
        timestamp - st.lastMouseClickTimestamp > st.multiClickTime →
      (_NumberOfClicks st point timestamp).1 = 1 ∧
        (_StartSelection st point timestamp timestampAfter).1 =
          SelectionAction.drag) ∧
    ((_NumberOfClicks st point timestamp).1 = 2 →
      (_StartSelection st point timestamp timestampAfter).1 =
        SelectionAction.word) ∧
    ((_NumberOfClicks st point timestamp).1 = 3 →
      (_StartSelection st point timestamp timestampAfter).1 =
        SelectionAction.line) := by
  refine ⟨?_, ?_, ?_, ?_⟩
  · intro h
    have hcond : ¬(point ≠ st.lastMouseClickPos ∨
        timestamp - st.lastMouseClickTimestamp > st.multiClickTime) := by
      push_neg
      exact ⟨h.1, h.2⟩
    simp only [_NumberOfClicks]
    rw [if_neg hcond]
  · intro h
    constructor
    · simp only [_NumberOfClicks]
      rw [if_pos h]
    · simp only [_StartSelection, _NumberOfClicks]
      rw [if_pos h]
      rfl
  · intro h
    simp only [_StartSelection, h]
    rfl
  · intro h
    simp only [_StartSelection, h]
    rfl

/-- A concrete click state used by the multi-click witness. -/
def hwndStateExample : HwndTerminalState :=
  { lastMouseClickPos := ⟨5, 5⟩
    lastMouseClickTimestamp := 100
    multiClickCounter := 1
    multiClickTime := 50
    singleClickTouchdownPos := none }

/-- Witness for C8: a second click at the same position 20 ticks later
increments the counter to two and selects by word. -/
theorem multiClick_semantics_witness :
    ((⟨5, 5⟩ : COORD) = hwndStateExample.lastMouseClickPos ∧
        (120 : Int) - hwndStateExample.lastMouseClickTimestamp ≤
          hwndStateExample.multiClickTime) ∧
      (_NumberOfClicks hwndStateExample ⟨5, 5⟩ 120).1 =
        hwndStateExample.multiClickCounter + 1 ∧
      (_StartSelection hwndStateExample ⟨5, 5⟩ 120 121).1 = SelectionAction.word :=
  ⟨⟨by decide, by decide⟩,
    (multiClick_semantics hwndStateExample ⟨5, 5⟩ 120 121).1 ⟨by decide, by decide⟩,
    (multiClick_semantics hwndStateExample ⟨5, 5⟩ 120 121).2.2.1 (by decide)⟩

/-- The text rectangles of a span always cover at least one row. -/
theorem GetTextRects_ne_nil (start stop : COORD) (blockMode : Bool)
    (rightInclusive : Int) :
    GetTextRects start stop blockMode rightInclusive ≠ [] := by
  intro hcontra
  have hlen := congrArg List.length hcontra
  simp only [GetTextRects, List.length_map, List.length_range, List.length_nil] at hlen
  exact Nat.succ_ne_zero _ hlen

/-- Counterexample to C4 as stated: a mouse selection that has been
initialized but not yet shown is in selecting state with a selected area,
yet GetSelectionRects returns the empty list because the visibility flag is
still clear. -/
theorem getSelectionRects_active_but_hidden_empty :
    IsInSelectingState (InitializeMouseSelection Selection.initial ⟨10, 5⟩ false) = true ∧
      IsAreaSelected (InitializeMouseSelection Selection.initial ⟨10, 5⟩ false) = true ∧
      GetSelectionRects (InitializeMouseSelection Selection.initial ⟨10, 5⟩ false) 79 =
        [] :=
  ⟨rfl, rfl, rfl⟩

/-- C4 (amended): whenever the selection is visible (the code raises the
visibility flag only while in selecting state with a selected area),
GetSelectionRects returns exactly the per-row text rectangles between the
stored anchor and the opposite corner of the stored rectangle in the current
line/block mode, and that list is never empty. -/
theorem getSelectionRects_visible_nonempty (s : SelectionState)
    (rightInclusive : Int) (h : s.fSelectionVisible = true) :
    GetSelectionRects s rightInclusive =
      GetTextRects s.coordSelectionAnchor (endSelectionAnchor s)
        (!IsLineSelection s) rightInclusive ∧
    GetSelectionRects s rightInclusive ≠ [] := by
  have heq : GetSelectionRects s rightInclusive =
      GetTextRects s.coordSelectionAnchor (endSelectionAnchor s)
        (!IsLineSelection s) rightInclusive := by
    simp [GetSelectionRects, h]
  exact ⟨heq, heq ▸ GetTextRects_ne_nil _ _ _ _⟩

/-- A concrete visible selection used by the C4 witness: anchor 10,5 with the
rectangle extended to 20,5 in line mode. -/
def selectionStateExample : SelectionState :=
  { fSelectionVisible := true
    coordSelectionAnchor := ⟨10, 5⟩
    srSelectionRect := ⟨10, 5, 20, 5⟩
    fLineSelection := true
    fUseAlternateSelection := false
    mouseInitiated := true
    notEmpty := true
    selecting := true
    allowMouseDragSelection := true }

/-- Witness for C4 (amended): the visible selection of the example yields a
non-empty rectangle list matching the anchor and opposite corner. -/
theorem getSelectionRects_visible_nonempty_witness :
    selectionStateExample.fSelectionVisible = true ∧
      (GetSelectionRects selectionStateExample 79 =
          GetTextRects selectionStateExample.coordSelectionAnchor
            (endSelectionAnchor selectionStateExample)
            (!IsLineSelection selectionStateExample) 79 ∧
        GetSelectionRects selectionStateExample 79 ≠ []) :=
  ⟨rfl, getSelectionRects_visible_nonempty selectionStateExample 79 rfl⟩

/-- The rectangle update of ExtendSelection in closed form: both axes are
recomputed as the span between the position and the anchor. -/
theorem extendSelectionRect_eq (s : SelectionState) (p : COORD) :
    extendSelectionRect s p =
      { s with srSelectionRect :=
          ⟨min p.X s.coordSelectionAnchor.X, min p.Y s.coordSelectionAnchor.Y,
            max p.X s.coordSelectionAnchor.X, max p.Y s.coordSelectionAnchor.Y⟩ } := by
  obtain ⟨v, a, ⟨rl, rt, rr, rb⟩, fl, alt, mi, ne, sel, al⟩ := s
  simp only [extendSelectionRect]
  by_cases hx : p.X ≤ a.X <;> by_cases hy : p.Y ≤ a.Y <;>
    simp [hx, hy, min_def, max_def]

/-- C5: extending the selection twice in a row to the same in-bounds
coordinate changes nothing on the second call: the whole selection state,
its rectangle included, is identical after the first and the second call. -/
theorem ExtendSelection_idempotent (s : SelectionState) (pos : COORD)
    (bufW bufH : Int)
    (h : 0 ≤ pos.X ∧ pos.X < bufW ∧ 0 ≤ pos.Y ∧ pos.Y < bufH) :
    ExtendSelection (ExtendSelection s pos bufW bufH) pos bufW bufH =
      ExtendSelection s pos bufW bufH := by
  obtain ⟨h1, h2, h3, h4⟩ := h
  have hclamp : clampToBuffer pos bufW bufH = pos := by
    have hX : min (max pos.X 0) (bufW - 1) = pos.X := by omega
    have hY : min (max pos.Y 0) (bufH - 1) = pos.Y := by omega
    simp only [clampToBuffer, hX, hY]
  obtain ⟨v, a, r, fl, alt, mi, ne, sel, al⟩ := s
  cases ne <;> cases mi <;> cases sel <;> cases v <;>
    simp [ExtendSelection, hclamp, IsAreaSelected, IsMouseInitiatedSelection,
      IsInSelectingState, ShowSelection, _SetSelectionVisibility,
      extendSelectionRect_eq]

/-- A concrete selection used by the C5 witness: a mouse selection anchored
at 10,5 on an 80 by 25 buffer. -/
def extendStateExample : SelectionState :=
  { fSelectionVisible := true
    coordSelectionAnchor := ⟨10, 5⟩
    srSelectionRect := ⟨10, 5, 10, 5⟩
    fLineSelection := true
    fUseAlternateSelection := false
    mouseInitiated := true
    notEmpty := true
    selecting := true
    allowMouseDragSelection := true }

/-- Witness for C5: extending twice to 20,5 equals extending once. -/
theorem ExtendSelection_idempotent_witness :
    (0 ≤ (⟨20, 5⟩ : COORD).X ∧ (⟨20, 5⟩ : COORD).X < 80 ∧
        0 ≤ (⟨20, 5⟩ : COORD).Y ∧ (⟨20, 5⟩ : COORD).Y < 25) ∧
      ExtendSelection (ExtendSelection extendStateExample ⟨20, 5⟩ 80 25) ⟨20, 5⟩ 80 25 =
        ExtendSelection extendStateExample ⟨20, 5⟩ 80 25 :=
  ⟨by decide, ExtendSelection_idempotent extendStateExample ⟨20, 5⟩ 80 25 (by decide)⟩

end Terminal
